import Mathlib

/-!
# Knowledge Text File Format (.kxt): frame log and rendering

A shallow embedding of `src/main.cpp`: the frame classes (`BaseFrame`, `Frame`,
`TemporalFrame`, `CursorFrame`, `SnapshotFrame`), the `Document` container with its
`append` and `render` members, and `generateExampleDocument`.

Modelling choices.
* `QString` is modelled by `String`; `+=` is string append.
* `uint16_t`, `uint32_t` and `uint64_t` fields are `Nat`; each C++ constructor
  reduces its integer argument modulo `2^16`, `2^32` or `2^64`, which is the
  conversion the parameter type performs.
* `std::shared_ptr<BaseFrame>` is `Option BaseFrame`: `none` is the null pointer and
  `some f` points to an object whose dynamic class is recorded by the constructor of
  `BaseFrame` used. All fields of the classes are public, so an object may hold any
  field values of the field types, not only those the constructors produce.
* `Document` derives from `std::vector<std::shared_ptr<BaseFrame>>`: a list of slots.
-/

namespace CoreThought

/-! ## Data model -/

/-- The enum class `EditMode`. -/
inductive EditMode where
  | Insert
  | Overwrite
  deriving DecidableEq, Repr

/-- The class `Editor`: `position` is a `uint64_t`, `length` a `uint32_t`. -/
structure Editor where
  position : Nat
  length : Nat
  mode : EditMode
  deriving DecidableEq, Repr

/-- The constructor `Editor(uint64_t initial, uint32_t rangeLength, EditMode initialMode)`. -/
def Editor.new (initial rangeLength : Nat) (initialMode : EditMode) : Editor :=
  { position := initial % 2 ^ 64, length := rangeLength % 2 ^ 32, mode := initialMode }

/-- An object reachable through a `BaseFrame*`: one constructor per class of the
hierarchy, carrying the fields that class has (inherited ones included). -/
inductive BaseFrame where
  /-- An object of class `BaseFrame` itself: `content`. -/
  | ofBase (content : String)
  /-- An object of class `Frame`: `content`, `deltaMs` (`uint16_t`). -/
  | ofFrame (content : String) (deltaMs : Nat)
  /-- An object of class `TemporalFrame`: `content`, `timestamp` (`uint64_t`). -/
  | ofTemporal (content : String) (timestamp : Nat)
  /-- An object of class `CursorFrame`: `content`, `timestamp`, `next`. -/
  | ofCursor (content : String) (timestamp : Nat) (next : Editor)
  /-- An object of class `SnapshotFrame`: `content`, `timestamp`. -/
  | ofSnapshot (content : String) (timestamp : Nat)
  deriving DecidableEq, Repr

/-- The member `BaseFrame::content`, which every class of the hierarchy inherits. -/
def BaseFrame.content : BaseFrame → String
  | .ofBase c => c
  | .ofFrame c _ => c
  | .ofTemporal c _ => c
  | .ofCursor c _ _ => c
  | .ofSnapshot c _ => c

/-- The constructor `BaseFrame(const QString& initial)`. -/
def newBaseFrame (initial : String) : BaseFrame :=
  .ofBase initial

/-- The constructor `Frame(const QString& content, uint16_t interval)`. -/
def newFrame (content : String) (interval : Nat) : BaseFrame :=
  .ofFrame content (interval % 2 ^ 16)

/-- The constructor `TemporalFrame(const QString& content, uint64_t initial)`. -/
def newTemporalFrame (content : String) (initial : Nat) : BaseFrame :=
  .ofTemporal content (initial % 2 ^ 64)

/-- The constructor `CursorFrame()`: `TemporalFrame(QString(), 0)` and
`next(0, 0, EditMode::Insert)`. -/
def newCursorFrame : BaseFrame :=
  .ofCursor "" (0 % 2 ^ 64) (Editor.new 0 0 EditMode.Insert)

/-- The constructor `SnapshotFrame(const QString& content, uint64_t initial)`. -/
def newSnapshotFrame (content : String) (initial : Nat) : BaseFrame :=
  .ofSnapshot content (initial % 2 ^ 64)

/-- Dynamic class test: the object is a `SnapshotFrame`. -/
def BaseFrame.isSnapshot : BaseFrame → Bool
  | .ofSnapshot _ _ => true
  | _ => false

/-- Dynamic class test: the object is a `CursorFrame`. -/
def BaseFrame.isCursor : BaseFrame → Bool
  | .ofCursor _ _ _ => true
  | _ => false

/-- The class `Document`: a vector of (possibly null) shared pointers to frames. -/
abbrev Document := List (Option BaseFrame)

/-- The default constructor `Document() = default`: the empty vector. -/
def Document.default : Document := []

/-- The member `Document::append`: `emplace_back(std::shared_ptr<BaseFrame>(args...))`.
The argument is the pointer the shared pointer is built from. No check is made. -/
def Document.append (d : Document) (args : Option BaseFrame) : Document :=
  d ++ [args]

/-- One iteration of the loop of `Document::render`: `if (frame) output += frame->content`. -/
def renderStep (output : String) (frame : Option BaseFrame) : String :=
  match frame with
  | some f => output ++ f.content
  | none => output

/-- The member `Document::render`: `output` starts empty and the loop runs over the
slots in vector order. -/
def Document.render (d : Document) : String :=
  d.foldl renderStep ""

/-- The function `generateExampleDocument`. -/
def generateExampleDocument : Document :=
  let example0 := Document.default
  let example1 := example0.append (some (newSnapshotFrame "" 0))
  let example2 := example1.append (some newCursorFrame)
  let example3 := example2.append (some (newFrame "Hello" 100))
  let example4 := example3.append (some (newFrame " " 100))
  let example5 := example4.append (some (newFrame "W" 120))
  let example6 := example5.append (some (newFrame "o" 118))
  let example7 := example6.append (some (newFrame "r" 125))
  let example8 := example7.append (some (newFrame "l" 132))
  let example9 := example8.append (some (newFrame "d" 150))
  let example10 := example9.append (some (newFrame "!" 150))
  example10

/-! ## Derived notions used to state the properties -/

/-- A sequence of `Document::append` calls, applied left to right. -/
def appendAll (d : Document) (fs : List (Option BaseFrame)) : Document :=
  fs.foldl Document.append d

/-- The frames of a log: the objects behind its non-null slots, in log order. -/
def Document.frames (d : Document) : List BaseFrame :=
  d.filterMap id

/-- The concatenation of a list of strings, left to right. -/
def concatAll : List String → String
  | [] => ""
  | s :: rest => s ++ concatAll rest

/-- The log of the construction scenario: `SnapshotFrame("", 0)`, `CursorFrame()`, then
one `Frame(p, d)` per pair of payload and interval. -/
def buildLog (edits : List (String × Nat)) : Document :=
  appendAll
    ((Document.default.append (some (newSnapshotFrame "" 0))).append (some newCursorFrame))
    (edits.map fun e => some (newFrame e.1 e.2))

/-- The end-to-end scenario log: snapshot, cursor, "Hello" (100), " " (100), "World" (120). -/
def scenarioLog : Document :=
  buildLog [("Hello", 100), (" ", 100), ("World", 120)]

/-- Follows the spec's words (the source computes no times): the resolved absolute time
of a slot, given the resolved time `prev` of the immediately preceding slot. A
`SnapshotFrame` or `CursorFrame` (and a plain `TemporalFrame`) resolves to its
`timestamp`; a content `Frame` resolves to `prev + deltaMs`; a slot that carries no
timing field (a plain `BaseFrame`, a null pointer) stays at `prev`. -/
def resolveStep (prev : Nat) : Option BaseFrame → Nat
  | some (.ofSnapshot _ t) => t
  | some (.ofCursor _ t _) => t
  | some (.ofTemporal _ t) => t
  | some (.ofFrame _ deltaMs) => prev + deltaMs
  | some (.ofBase _) => prev
  | none => prev

/-- Follows the spec's words: the resolved absolute times of the slots of a log, as a
running value that starts from `prev`. -/
def resolvedFrom (prev : Nat) : Document → List Nat
  | [] => []
  | frame :: rest => resolveStep prev frame :: resolvedFrom (resolveStep prev frame) rest

/-- Follows the spec's words: the resolved absolute times of a log; time starts at 0. -/
def Document.resolvedTimes (d : Document) : List Nat :=
  resolvedFrom 0 d

/-- Every element of the list is at most the one that follows it. -/
def nonDecreasing : List Nat → Bool
  | a :: b :: rest => decide (a ≤ b) && nonDecreasing (b :: rest)
  | _ => true

/-- Follows the spec's words: monotonic time, the resolved time of frame `i+1` is at
least that of frame `i` for every valid `i`. -/
def Document.monotonicTime (d : Document) : Bool :=
  nonDecreasing d.resolvedTimes

/-- The first slot of the log holds a `SnapshotFrame`. -/
def Document.firstIsSnapshot (d : Document) : Bool :=
  match d.head? with
  | some (some f) => f.isSnapshot
  | _ => false

/-- The log contains no `CursorFrame`. -/
def Document.noCursorFrame (d : Document) : Prop :=
  ∀ f ∈ d.frames, f.isCursor = false

instance (d : Document) : Decidable d.noCursorFrame := by
  unfold Document.noCursorFrame; infer_instance

/-- The log truncated to its first `n` slots; `d.truncate (i + 1)` is the log truncated
after frame `i`. -/
def Document.truncate (d : Document) (n : Nat) : Document :=
  d.take n

/-- The overwrite scenario: a `CursorFrame` whose `next` is
`{position = 6, length = 5, mode = Overwrite}`, then `Frame("Earth", 10)`, appended
to `d`. -/
def overwriteScenario (d : Document) (timestamp : Nat) : Document :=
  (d.append (some (.ofCursor "" timestamp
    { position := 6, length := 5, mode := EditMode.Overwrite }))).append
    (some (newFrame "Earth" 10))

/-- A log with a checkpoint at index 2 that repeats the text typed so far. -/
def checkpointLog : Document :=
  ((Document.default.append (some (newSnapshotFrame "" 0))).append
    (some (newFrame "Hello" 100))).append (some (newSnapshotFrame "Hello" 100))

/-- A call of one of the provided constructors whose result is appended to a log:
`SnapshotFrame(content, initial)`, `CursorFrame()` or `Frame(content, interval)`. -/
inductive ConstructorCall where
  | snapshotFrame (content : String) (initial : Nat)
  | cursorFrame
  | frame (content : String) (interval : Nat)
  deriving DecidableEq, Repr

/-- The object a constructor call produces. -/
def ConstructorCall.build : ConstructorCall → BaseFrame
  | .snapshotFrame content initial => newSnapshotFrame content initial
  | .cursorFrame => newCursorFrame
  | .frame content interval => newFrame content interval

/-- The log built from the default-constructed `Document` by appending, in order, the
frame produced by each constructor call. -/
def constructedLog (calls : List ConstructorCall) : Document :=
  appendAll Document.default (calls.map fun c => some c.build)

/-- The `content` field seen through a slot: none for a null pointer. -/
def slotContent (slot : Option BaseFrame) : Option String :=
  slot.map BaseFrame.content

/-- The log with all null slots removed, the other slots kept in order. -/
def Document.removeNulls (d : Document) : Document :=
  d.filter Option.isSome

/-- The log that holds one `SnapshotFrame("", 0)`; it renders to the empty document. -/
def emptySnapshotLog : Document :=
  Document.default.append (some (newSnapshotFrame "" 0))

/-- A `CursorFrame` object whose `next` is `{position = 1, length = 0, mode = Insert}`. -/
def cursorAtOne : BaseFrame :=
  .ofCursor "" 0 { position := 1, length := 0, mode := EditMode.Insert }

/-! ## Auxiliary lemmas -/

theorem renderStep_append (acc out : String) (frame : Option BaseFrame) :
    renderStep (acc ++ out) frame = acc ++ renderStep out frame := by
  cases frame with
  | none => rfl
  | some f => simp [renderStep, String.append_assoc]

theorem foldl_renderStep_append (d : Document) (acc out : String) :
    d.foldl renderStep (acc ++ out) = acc ++ d.foldl renderStep out := by
  induction d generalizing out with
  | nil => rfl
  | cons frame rest ih =>
    simp only [List.foldl_cons, renderStep_append, ih]

theorem foldl_renderStep_eq (d : Document) (acc : String) :
    d.foldl renderStep acc = acc ++ Document.render d := by
  have h := foldl_renderStep_append d acc ""
  simpa [Document.render] using h

theorem render_nil : Document.render [] = "" := rfl

theorem render_cons (frame : Option BaseFrame) (d : Document) :
    Document.render (frame :: d) = renderStep "" frame ++ Document.render d := by
  simp only [Document.render, List.foldl_cons]
  exact foldl_renderStep_eq d _

theorem render_cons_some (f : BaseFrame) (d : Document) :
    Document.render (some f :: d) = f.content ++ Document.render d := by
  rw [render_cons]; simp [renderStep]

theorem render_cons_none (d : Document) :
    Document.render (none :: d) = Document.render d := by
  rw [render_cons]; simp [renderStep]

theorem render_concat (d e : Document) :
    Document.render (d ++ e) = Document.render d ++ Document.render e := by
  simp only [Document.render, List.foldl_append]
  exact foldl_renderStep_eq e _

theorem render_append (d : Document) (frame : Option BaseFrame) :
    Document.render (d.append frame) = renderStep (Document.render d) frame := by
  simp [Document.render, Document.append, List.foldl_append]

theorem appendAll_eq (d : Document) (fs : List (Option BaseFrame)) :
    appendAll d fs = d ++ fs := by
  induction fs generalizing d with
  | nil => simp [appendAll]
  | cons f rest ih =>
    have h := ih (d.append f)
    simp only [appendAll, List.foldl_cons] at h ⊢
    rw [h]; simp [Document.append]

theorem string_append_eq_right_iff (s c : String) : s ++ c = c ↔ s = "" := by
  constructor
  · intro h
    have h2 : s.data ++ c.data = c.data := by
      have := congrArg String.data h
      simpa using this
    have h3 : s.data = [] := List.append_left_eq_self.mp h2
    exact String.ext h3
  · rintro rfl
    simp

theorem truncate_succ_of_getElem? (d : Document) (i : Nat) (x : Option BaseFrame)
    (h : d[i]? = some x) : d.truncate (i + 1) = d.truncate i ++ [x] := by
  simp only [Document.truncate]
  rw [List.take_succ, h]; rfl

theorem resolvedFrom_succ (d : Document) (prev i : Nat) (x : Option BaseFrame)
    (h : d[i + 1]? = some x) :
    ∃ t, (resolvedFrom prev d)[i]? = some t ∧
      (resolvedFrom prev d)[i + 1]? = some (resolveStep t x) := by
  induction d generalizing prev i with
  | nil => simp at h
  | cons frame rest ih =>
    cases i with
    | zero =>
      cases rest with
      | nil => simp at h
      | cons y tail =>
        simp only [List.getElem?_cons_succ, List.getElem?_cons_zero, Option.some.injEq] at h
        subst h
        exact ⟨resolveStep prev frame, by simp [resolvedFrom]⟩
    | succ j =>
      have h2 : rest[j + 1]? = some x := by simpa using h
      obtain ⟨t, ht1, ht2⟩ := ih (resolveStep prev frame) j h2
      exact ⟨t, by simpa [resolvedFrom] using ht1, by simpa [resolvedFrom] using ht2⟩

theorem appendAll_default (fs : List (Option BaseFrame)) :
    appendAll Document.default fs = fs := by
  rw [appendAll_eq]; rfl

theorem renderStep_empty (frame : Option BaseFrame) :
    renderStep "" frame = (slotContent frame).getD "" := by
  cases frame with
  | none => rfl
  | some f => simp [renderStep, slotContent]

theorem render_congr_slotContent (d e : Document)
    (h : d.map slotContent = e.map slotContent) : d.render = e.render := by
  induction d generalizing e with
  | nil =>
    cases e with
    | nil => rfl
    | cons y tail => simp at h
  | cons x rest ih =>
    cases e with
    | nil => simp at h
    | cons y tail =>
      simp only [List.map_cons, List.cons.injEq] at h
      rw [render_cons, render_cons, renderStep_empty, renderStep_empty, h.1, ih tail h.2]

theorem render_length (d : Document) :
    d.render.length = (d.frames.map fun f => f.content.length).sum := by
  induction d with
  | nil => rfl
  | cons frame rest ih =>
    cases frame with
    | none => rw [render_cons_none, ih]; rfl
    | some f =>
      rw [render_cons_some, String.length_append, ih]
      simp [Document.frames]

theorem constructedLog_eq (calls : List ConstructorCall) :
    constructedLog calls = calls.map fun c => some c.build := by
  simp [constructedLog, appendAll_default]

/-- C1: `Document::render` returns the concatenation, in log order, of the `content`
field of every frame of the log, whatever the class of the frame and whatever its
timing or cursor fields are; for the empty document it returns the empty string. -/
theorem render_eq_concat_contents :
    (∀ d : Document, d.render = concatAll (d.frames.map BaseFrame.content)) ∧
      Document.default.render = "" := by
  refine ⟨fun d => ?_, rfl⟩
  induction d with
  | nil => rfl
  | cons frame rest ih =>
    cases frame with
    | none => rw [render_cons_none, ih]; rfl
    | some f => rw [render_cons_some, ih]; rfl

/-- C2: the log built by appending `SnapshotFrame("", 0)`, a default `CursorFrame()` and
then `Frame(p1, d1)` .. `Frame(pn, dn)` renders to `p1 ++ .. ++ pn`, for every list of
payloads and intervals; the scenario log renders to "Hello World" and
`generateExampleDocument()` to "Hello World!". -/
theorem render_buildLog :
    (∀ edits : List (String × Nat),
        (buildLog edits).render = concatAll (edits.map Prod.fst)) ∧
      scenarioLog.render = "Hello World" ∧
      generateExampleDocument.render = "Hello World!" := by
  refine ⟨fun edits => ?_, by decide, by decide⟩
  simp only [buildLog, appendAll_eq, Document.append, Document.default, List.nil_append,
    List.cons_append, render_cons_some]
  have h : ∀ es : List (String × Nat),
      Document.render (es.map fun e => some (newFrame e.1 e.2)) =
        concatAll (es.map Prod.fst) := by
    intro es
    induction es with
    | nil => rfl
    | cons e rest ih =>
      simp only [List.map_cons, render_cons_some, ih]
      rfl
  rw [h]
  simp [newSnapshotFrame, newCursorFrame, BaseFrame.content]

/-- C4 (as stated, refuted): in `checkpointLog` frame 2 is a `SnapshotFrame` with content
"Hello", yet the document rendered from the log truncated after frame 2 is
"HelloHello". -/
theorem snapshot_idempotence_fails :
    checkpointLog[2]? = some (some (.ofSnapshot "Hello" 100)) ∧
      (checkpointLog.truncate (2 + 1)).render = "HelloHello" ∧
      (checkpointLog.truncate (2 + 1)).render ≠ "Hello" := by
  decide

/-- C4 (amended): when frame `i` is a `SnapshotFrame`, the document rendered from the log
truncated after frame `i` is the document rendered from the frames before `i` followed
by the snapshot's content; it is exactly the snapshot's content if and only if the
frames before `i` render to the empty string. -/
theorem render_take_snapshot (d : Document) (i : Nat) (content : String) (timestamp : Nat)
    (h : d[i]? = some (some (.ofSnapshot content timestamp))) :
    (d.truncate (i + 1)).render = (d.truncate i).render ++ content ∧
      ((d.truncate (i + 1)).render = content ↔ (d.truncate i).render = "") := by
  have h1 : (d.truncate (i + 1)).render = (d.truncate i).render ++ content := by
    rw [truncate_succ_of_getElem? d i _ h, render_concat, render_cons_some, render_nil]
    simp [BaseFrame.content]
  exact ⟨h1, by rw [h1]; exact string_append_eq_right_iff _ _⟩

theorem render_take_snapshot_witness :
    (checkpointLog.truncate (2 + 1)).render = (checkpointLog.truncate 2).render ++ "Hello" ∧
      ((checkpointLog.truncate (2 + 1)).render = "Hello" ↔ (checkpointLog.truncate 2).render = "") :=
  render_take_snapshot checkpointLog 2 "Hello" 100 (by decide)

/-- C5 (as stated, refuted): from a log whose content is "Hello World", appending a
`CursorFrame` with `{position = 6, length = 5, mode = Overwrite}` and then
`Frame("Earth", 10)` renders to "Hello WorldEarth", not "Hello Earth". -/
theorem overwrite_scenario_fails :
    (Document.default.append (some (newSnapshotFrame "Hello World" 0))).render
        = "Hello World" ∧
      (overwriteScenario
        (Document.default.append (some (newSnapshotFrame "Hello World" 0))) 0).render
        = "Hello WorldEarth" ∧
      (overwriteScenario
        (Document.default.append (some (newSnapshotFrame "Hello World" 0))) 0).render
        ≠ "Hello Earth" := by
  decide

/-- C5 (amended): appending a `CursorFrame` with empty content and any `Editor`
(position, length, mode) and then a content `Frame` with payload `p` makes the rendered
document the previous document followed by `p`: the payload is appended at the end,
whatever the cursor says; for the overwrite scenario the result is the previous
document followed by "Earth". -/
theorem render_cursor_then_frame :
    (∀ (d : Document) (timestamp : Nat) (next : Editor) (p : String) (interval : Nat),
        ((d.append (some (.ofCursor "" timestamp next))).append
          (some (newFrame p interval))).render = d.render ++ p) ∧
      (∀ (d : Document) (timestamp : Nat),
        (overwriteScenario d timestamp).render = d.render ++ "Earth") := by
  have h : ∀ (d : Document) (timestamp : Nat) (next : Editor) (p : String) (interval : Nat),
      ((d.append (some (.ofCursor "" timestamp next))).append
        (some (newFrame p interval))).render = d.render ++ p := by
    intro d timestamp next p interval
    simp [render_append, renderStep, newFrame, BaseFrame.content]
  exact ⟨h, fun d timestamp => h d timestamp _ "Earth" 10⟩

/-- C6: for a log with no `CursorFrame` and a content `Frame` f, the document rendered
after appending f is the document rendered before followed by f's payload: the first
`len(render(d))` characters are those of `render(d)` and the rest is the payload. -/
theorem render_append_frame (d : Document) (content : String) (deltaMs : Nat)
    (_h : d.noCursorFrame) :
    (d.append (some (.ofFrame content deltaMs))).render = d.render ++ content ∧
      (d.append (some (.ofFrame content deltaMs))).render.data.take d.render.length
        = d.render.data ∧
      (d.append (some (.ofFrame content deltaMs))).render.data.drop d.render.length
        = content.data := by
  have h1 : (d.append (some (.ofFrame content deltaMs))).render = d.render ++ content := by
    simp [render_append, renderStep, BaseFrame.content]
  rw [h1]
  refine ⟨rfl, ?_, ?_⟩
  · rw [String.data_append]; exact List.take_left _ _
  · rw [String.data_append]; exact List.drop_left _ _

theorem render_append_frame_witness :
    Document.noCursorFrame [some (newSnapshotFrame "ab" 0)] ∧
      (Document.append [some (newSnapshotFrame "ab" 0)] (some (.ofFrame "c" 7))).render
        = Document.render [some (newSnapshotFrame "ab" 0)] ++ "c" :=
  ⟨by decide,
    (render_append_frame [some (newSnapshotFrame "ab" 0)] "c" 7 (by decide)).1⟩

/-- C7: the `CursorFrame` constructor produces a frame with empty content, and appending
a constructed `CursorFrame` to any log leaves the rendered document unchanged. -/
theorem render_append_cursorFrame :
    newCursorFrame.content = "" ∧
      ∀ d : Document, (d.append (some newCursorFrame)).render = d.render := by
  refine ⟨rfl, fun d => ?_⟩
  simp [render_append, renderStep, newCursorFrame, BaseFrame.content]

/-- C8: the log is append-only. After `Document::append(f)` on a log of `n` frames the
log has `n + 1` frames, frame `n` is `f`, and frames `0..n-1` are the frames the log
had before, in the same order and with the same fields. -/
theorem append_appends (d : Document) (f : Option BaseFrame) :
    (d.append f).length = d.length + 1 ∧
      (d.append f)[d.length]? = some f ∧
      (d.append f).take d.length = d ∧
      ∀ i : Fin d.length, (d.append f)[i.val]? = d[i.val]? := by
  refine ⟨by simp [Document.append], by simp [Document.append], by simp [Document.append], ?_⟩
  intro i
  simp [Document.append, List.getElem?_append_left i.isLt]

/-- C9 (as stated, refuted): the default-constructed `Document`, reached by zero appends,
is empty; and the document reached by the single call `append(new Frame("x", 1))` does
not have a `SnapshotFrame` as its first frame. -/
theorem first_frame_snapshot_fails :
    appendAll Document.default [] = [] ∧
      (appendAll Document.default [some (newFrame "x" 1)]).firstIsSnapshot = false := by
  decide

/-- C9 (amended): a `Document` obtained from the default-constructed one by one or more
`Document::append` calls is non-empty and its first slot holds the argument of the
first call, so its first frame is a `SnapshotFrame` exactly when the first frame
appended is one; this is the case for `generateExampleDocument()`. -/
theorem first_frame_is_first_appended :
    (∀ (args : Option BaseFrame) (rest : List (Option BaseFrame)),
        appendAll Document.default (args :: rest) ≠ [] ∧
        (appendAll Document.default (args :: rest)).head? = some args ∧
        ((appendAll Document.default (args :: rest)).firstIsSnapshot = true ↔
          ∃ content timestamp, args = some (.ofSnapshot content timestamp))) ∧
      generateExampleDocument ≠ [] ∧
      generateExampleDocument.firstIsSnapshot = true := by
  refine ⟨fun args rest => ?_, by decide, by decide⟩
  rw [appendAll_default]
  refine ⟨by simp, rfl, ?_⟩
  constructor
  · intro h
    match args, h with
    | some (.ofSnapshot content timestamp), _ => exact ⟨content, timestamp, rfl⟩
  · rintro ⟨content, timestamp, rfl⟩
    rfl

/-- C10 (as stated, refuted): the log built by `append(new SnapshotFrame("", 5))` and then
`append(new CursorFrame())` has resolved times 5 and 0: time goes backwards. -/
theorem monotonic_time_fails :
    (appendAll Document.default
        [some (newSnapshotFrame "" 5), some newCursorFrame]).resolvedTimes = [5, 0] ∧
      (appendAll Document.default
        [some (newSnapshotFrame "" 5), some newCursorFrame]).monotonicTime = false := by
  decide

/-- C10 (amended): in a log built only through `Document::append`, for every valid `i`
such that frame `i+1` is a content `Frame`, the resolved time of frame `i+1` is the
resolved time of frame `i` plus the frame's `deltaMs`, hence at least the resolved
time of frame `i`. -/
theorem resolved_time_frame_step (fs : List (Option BaseFrame)) (i : Nat)
    (content : String) (deltaMs : Nat)
    (h : (appendAll Document.default fs)[i + 1]? = some (some (.ofFrame content deltaMs))) :
    ∃ t u, (appendAll Document.default fs).resolvedTimes[i]? = some t ∧
      (appendAll Document.default fs).resolvedTimes[i + 1]? = some u ∧
      u = t + deltaMs ∧ t ≤ u := by
  obtain ⟨t, h1, h2⟩ := resolvedFrom_succ _ 0 i _ h
  exact ⟨t, t + deltaMs, h1, h2, rfl, Nat.le_add_right t deltaMs⟩

theorem resolved_time_frame_step_witness :
    ∃ t u, (appendAll Document.default scenarioLog).resolvedTimes[3]? = some t ∧
      (appendAll Document.default scenarioLog).resolvedTimes[3 + 1]? = some u ∧
      u = t + 120 ∧ t ≤ u :=
  resolved_time_frame_step scenarioLog 3 "World" 120 (by decide)

/-- C11 (as stated, refuted): `emptySnapshotLog` renders to the empty document (length 0)
and `cursorAtOne` has `next.position = 1 > 0`, yet `Document::append` appends it: the log
changes from one frame to two and the new frame is visible as frame 1. -/
theorem append_cursor_not_rejected :
    emptySnapshotLog.render.length = 0 ∧
      (emptySnapshotLog.append (some cursorAtOne)).length = 2 ∧
      (emptySnapshotLog.append (some cursorAtOne))[1]? = some (some cursorAtOne) ∧
      emptySnapshotLog.append (some cursorAtOne) ≠ emptySnapshotLog := by
  decide

/-- C11 (amended): for every log `d` and every `CursorFrame` whose `next.position` is
greater than the length of the document rendered from `d`, `Document::append` does not
fail: the frame is appended, the log has one more frame, the frame is visible as the
last frame and the earlier frames are kept. -/
theorem append_cursor_out_of_range (d : Document) (content : String) (timestamp : Nat)
    (next : Editor) (_h : next.position > d.render.length) :
    (d.append (some (.ofCursor content timestamp next))).length = d.length + 1 ∧
      (d.append (some (.ofCursor content timestamp next)))[d.length]?
        = some (some (.ofCursor content timestamp next)) ∧
      (d.append (some (.ofCursor content timestamp next))).truncate d.length = d ∧
      d.append (some (.ofCursor content timestamp next)) ≠ d := by
  refine ⟨by simp [Document.append], by simp [Document.append],
    by simp [Document.append, Document.truncate], ?_⟩
  intro h
  have h2 := congrArg List.length h
  simp [Document.append] at h2

theorem append_cursor_out_of_range_witness :
    (emptySnapshotLog.append (some (.ofCursor "" 0 ⟨1, 0, EditMode.Insert⟩))).length
        = emptySnapshotLog.length + 1 ∧
      (emptySnapshotLog.append (some (.ofCursor "" 0 ⟨1, 0, EditMode.Insert⟩)))[
        emptySnapshotLog.length]? = some (some (.ofCursor "" 0 ⟨1, 0, EditMode.Insert⟩)) ∧
      (emptySnapshotLog.append (some (.ofCursor "" 0 ⟨1, 0, EditMode.Insert⟩))).truncate
        emptySnapshotLog.length = emptySnapshotLog ∧
      emptySnapshotLog.append (some (.ofCursor "" 0 ⟨1, 0, EditMode.Insert⟩))
        ≠ emptySnapshotLog :=
  append_cursor_out_of_range emptySnapshotLog "" 0 ⟨1, 0, EditMode.Insert⟩ (by decide)

/-- C12: in a log built only by appending frames produced by the provided constructors
(`SnapshotFrame(content, t)`, `CursorFrame()`, `Frame(content, deltaMs)`), every
`CursorFrame` has a `next.position` that does not exceed the length of the document
rendered from the frames before it, and if its mode is Overwrite then
`position + length` does not exceed that length either. -/
theorem constructed_cursor_in_range (calls : List ConstructorCall) (i : Nat)
    (content : String) (timestamp : Nat) (next : Editor)
    (h : (constructedLog calls)[i]? = some (some (.ofCursor content timestamp next))) :
    next.position ≤ ((constructedLog calls).truncate i).render.length ∧
      (next.mode = EditMode.Overwrite →
        next.position + next.length ≤ ((constructedLog calls).truncate i).render.length) := by
  rw [constructedLog_eq, List.getElem?_map] at h
  cases hc : calls[i]? with
  | none => simp [hc] at h
  | some c =>
    rw [hc] at h
    simp only [Option.map_some', Option.some.injEq] at h
    cases c with
    | snapshotFrame content0 initial => simp [ConstructorCall.build, newSnapshotFrame] at h
    | frame content0 interval => simp [ConstructorCall.build, newFrame] at h
    | cursorFrame =>
      simp only [ConstructorCall.build, newCursorFrame, BaseFrame.ofCursor.injEq] at h
      obtain ⟨_, _, rfl⟩ := h
      refine ⟨by simp [Editor.new], ?_⟩
      intro hmode
      simp [Editor.new] at hmode

theorem constructed_cursor_in_range_witness :
    (Editor.new 0 0 EditMode.Insert).position ≤
        ((constructedLog [.snapshotFrame "Hello" 0, .cursorFrame, .frame "!" 10]).truncate
          1).render.length ∧
      ((Editor.new 0 0 EditMode.Insert).mode = EditMode.Overwrite →
        (Editor.new 0 0 EditMode.Insert).position + (Editor.new 0 0 EditMode.Insert).length ≤
          ((constructedLog [.snapshotFrame "Hello" 0, .cursorFrame, .frame "!" 10]).truncate
            1).render.length) :=
  constructed_cursor_in_range [.snapshotFrame "Hello" 0, .cursorFrame, .frame "!" 10] 1
    "" 0 (Editor.new 0 0 EditMode.Insert) (by decide)

/-- C13: later frames never rewrite history. For all frame sequences d1 and d2,
`render(d1 ++ d2) = render(d1) ++ render(d2)`; the document rendered from the first `n`
frames of a log is a string prefix of the document rendered from the whole log (the
rest being the render of the remaining frames); and the rendered length is the sum of
the lengths of the frames' contents. -/
theorem render_history_preserved :
    (∀ d1 d2 : Document, Document.render (d1 ++ d2) = d1.render ++ d2.render) ∧
      (∀ (d : Document) (n : Nat),
        d.render = (d.truncate n).render ++ Document.render (d.drop n) ∧
        d.render.data.take (d.truncate n).render.length = (d.truncate n).render.data) ∧
      (∀ d : Document,
        d.render.length = (d.frames.map fun f => f.content.length).sum) := by
  refine ⟨render_concat, fun d n => ?_, render_length⟩
  have h : d.render = (d.truncate n).render ++ Document.render (d.drop n) := by
    rw [← render_concat, Document.truncate, List.take_append_drop]
  refine ⟨h, ?_⟩
  conv_lhs => rw [h]
  rw [String.data_append]
  exact List.take_left _ _

/-- C14: the rendered document does not depend on timing or cursor metadata. Two logs
of equal length whose slots agree position by position on the `content` field (a null
slot has no content and agrees only with a null slot) render to the same string,
whatever the classes of the frames and their `deltaMs`, `timestamp` and `next` are. -/
theorem render_depends_on_content_only (d e : Document) (hlen : d.length = e.length)
    (h : ∀ i : Nat, i < d.length → (d[i]?).map slotContent = (e[i]?).map slotContent) :
    d.render = e.render := by
  apply render_congr_slotContent
  apply List.ext_getElem?
  intro i
  rw [List.getElem?_map, List.getElem?_map]
  by_cases hi : i < d.length
  · exact h i hi
  · have hd : d[i]? = none := List.getElem?_eq_none (by omega)
    have he : e[i]? = none := List.getElem?_eq_none (by omega)
    rw [hd, he]

theorem render_depends_on_content_only_witness :
    Document.render [some (newSnapshotFrame "a" 0), some (newFrame "b" 5), none] =
      Document.render
        [some (.ofCursor "a" 9 ⟨1, 2, EditMode.Overwrite⟩), some (newTemporalFrame "b" 7),
          none] :=
  render_depends_on_content_only
    [some (newSnapshotFrame "a" 0), some (newFrame "b" 5), none]
    [some (.ofCursor "a" 9 ⟨1, 2, EditMode.Overwrite⟩), some (newTemporalFrame "b" 7), none]
    (by decide) (by decide)

/-- C15: `Document::render` is total on logs with null slots. `Document::append` accepts
a null pointer (the log gets one more slot, which is null), the loop of `render` leaves
`output` unchanged at a null slot, so appending a null pointer does not change the
rendered document, and for every log the render equals the render of the log with all
null slots removed. -/
theorem render_skips_null_slots :
    (∀ d : Document,
        (d.append none).length = d.length + 1 ∧ (d.append none)[d.length]? = some none) ∧
      (∀ output : String, renderStep output none = output) ∧
      (∀ d : Document, (d.append none).render = d.render) ∧
      (∀ d : Document, d.render = d.removeNulls.render) := by
  refine ⟨fun d => ⟨by simp [Document.append], by simp [Document.append]⟩, fun _ => rfl,
    fun d => by rw [render_append]; rfl, fun d => ?_⟩
  induction d with
  | nil => rfl
  | cons frame rest ih =>
    cases frame with
    | none =>
      rw [render_cons_none, ih]
      simp [Document.removeNulls]
    | some f =>
      have hf : Document.removeNulls (some f :: rest) = some f :: Document.removeNulls rest := by
        simp [Document.removeNulls]
      rw [hf, render_cons_some, render_cons_some, ih]

end CoreThought
